import Mathlib

/-!
Verification of the year-over-year category comparison and report formatter
of the YNAB-Wrapped repository (src/wrapped/wrapped/cli.py), shallowly
embedded in Lean.  Money amounts and percentages are modelled as exact
rationals; Python strings are Lean strings; the fatal unpacking error in
`gather_data` is modelled by `Option` (`none` = unrecoverable error).
-/

/-- Embedding of `percent_diff(current, previous)` from cli.py.
The Python body first tests `current == previous` (returning `100.0`),
then computes `(abs(current - previous) / previous) * 100.0`, catching
`ZeroDivisionError` and returning `0`; the caught case is exactly
`previous == 0`, modelled here by the middle branch. -/
def percent_diff (current previous : ℚ) : ℚ :=
  if current = previous then 100
  else if previous = 0 then 0
  else |current - previous| / previous * 100

/-- One parsed expense row, as consumed by `gather_data`: a mapping with a
`Category` string and a numeric `Total` (the two keys the code reads). -/
structure Row where
  Category : String
  Total : ℚ
deriving DecidableEq

/-- Claim C1: for every pair (current, previous) with previous ≠ 0 and
current ≠ previous, `percent_diff current previous` equals
`abs (current - previous) / previous * 100`. -/
theorem percent_diff_formula (current previous : ℚ)
    (hprev : previous ≠ 0) (hne : current ≠ previous) :
    percent_diff current previous = |current - previous| / previous * 100 := by
  simp only [percent_diff, if_neg hne, if_neg hprev]

theorem percent_diff_formula_witness :
    percent_diff 7 2 = |(7:ℚ) - 2| / 2 * 100 ∧ percent_diff 7 2 = 250 := by
  refine ⟨percent_diff_formula 7 2 (by norm_num) (by norm_num), ?_⟩
  rw [percent_diff_formula 7 2 (by norm_num) (by norm_num)]
  norm_num

/-- Claim C2: `percent_diff x x = 100` for every x, including x = 0; the
equal-values branch takes precedence over the zero-division branch, so
`percent_diff 0 0` is 100, not 0. -/
theorem percent_diff_self_eq_hundred :
    (∀ x : ℚ, percent_diff x x = 100) ∧
      percent_diff 0 0 = 100 ∧ percent_diff 0 0 ≠ 0 := by
  refine ⟨fun x => by simp [percent_diff], by simp [percent_diff], ?_⟩
  simp [percent_diff]

/-- Claim C3: whenever previous = 0 and current ≠ previous, the division by
zero is recovered locally and `percent_diff` returns 0 (never an error or an
undefined/infinite value). -/
theorem percent_diff_zero_previous (current previous : ℚ)
    (hz : previous = 0) (hne : current ≠ previous) :
    percent_diff current previous = 0 := by
  subst hz
  simp [percent_diff, hne]

theorem percent_diff_zero_previous_witness : percent_diff 7 0 = 0 :=
  percent_diff_zero_previous 7 0 rfl (by norm_num)

/-- Claim C4, counterexample: the claim says `percent_diff 0 y = 0` for every
y ≠ 0, but at y = 5 the code takes the division branch and returns
`abs (0 - 5) / 5 * 100 = 100`, not 0. -/
theorem percent_diff_zero_current_counterexample :
    percent_diff 0 5 = 100 ∧ ¬ (∀ y : ℚ, y ≠ 0 → percent_diff 0 y = 0) := by
  have h : percent_diff 0 5 = 100 := by
    simp only [percent_diff]
    norm_num
  exact ⟨h, fun hall => by have := hall 5 (by norm_num); rw [h] at this; norm_num at this⟩

/-- Claim C4 as amended: the argument whose vanishing is suppressed is
`previous` (the second argument): `percent_diff y 0 = 0` for every y ≠ 0. -/
theorem percent_diff_current_zero (y : ℚ) (hy : y ≠ 0) :
    percent_diff y 0 = 0 := by
  simp [percent_diff, hy]

theorem percent_diff_current_zero_witness : percent_diff 5 0 = 0 :=
  percent_diff_current_zero 5 (by norm_num)

/-! ### Number formatting

The report renders totals with Python's format specs `,.2f` (two decimals,
thousands separator) and `.2f` (two decimals).  These are embedded below:
round-half-even to two decimals, decimal digits, comma grouping in threes. -/

/-- The decimal digit character for d (0–9; inputs are always < 10 here). -/
def digitCh (d : ℕ) : Char :=
  if d = 0 then '0' else if d = 1 then '1' else if d = 2 then '2' else if d = 3 then '3'
  else if d = 4 then '4' else if d = 5 then '5' else if d = 6 then '6' else if d = 7 then '7'
  else if d = 8 then '8' else '9'

/-- Decimal digits of n, most significant first; fuel-based so the kernel
can evaluate it (fuel n+1 always suffices since n / 10 < n for n ≥ 10). -/
def natDigitsAux : ℕ → ℕ → List Char
  | 0, _ => []
  | fuel+1, n => if n < 10 then [digitCh n] else natDigitsAux fuel (n / 10) ++ [digitCh (n % 10)]

def natDigits (n : ℕ) : List Char := natDigitsAux (n + 1) n

/-- Group a digit list (least significant first) with a comma after every
three digits, as Python's `,` format option does. -/
def commaGroupAux : List Char → List Char
  | a :: b :: c :: d :: rest => a :: b :: c :: ',' :: commaGroupAux (d :: rest)
  | l => l

/-- The integer part of a `,.2f` rendering: decimal digits with thousands
separators. -/
def commaFmt (n : ℕ) : String := ⟨(commaGroupAux (natDigits n).reverse).reverse⟩

/-- Two fractional digits, zero-padded on the left. -/
def pad2 (n : ℕ) : List Char := if n < 10 then '0' :: natDigits n else natDigits n

/-- Round to the nearest integer, ties to even — the rounding used by
Python's fixed-point float formatting. -/
def roundHalfEven (q : ℚ) : ℤ :=
  if q - ⌊q⌋ < 1/2 then ⌊q⌋
  else if (1:ℚ)/2 < q - ⌊q⌋ then ⌊q⌋ + 1
  else if ⌊q⌋ % 2 = 0 then ⌊q⌋ else ⌊q⌋ + 1

/-- The magnitude of q in hundredths, rounded half-even: the digits printed
by a two-decimal rendering of |q|. -/
def cents (q : ℚ) : ℕ := (roundHalfEven (|q| * 100)).toNat

/-- Python `format(q, ",.2f")`: sign, comma-grouped integer part, point,
two fractional digits. -/
def fmtComma2 (q : ℚ) : String :=
  (if q < 0 then "-" else "") ++ commaFmt (cents q / 100) ++ "." ++ ⟨pad2 (cents q % 100)⟩

/-- Python `format(q, ".2f")`: as `fmtComma2` but without thousands
separators (used for the percent difference). -/
def fmtFixed2 (q : ℚ) : String :=
  (if q < 0 then "-" else "") ++ ⟨natDigits (cents q / 100)⟩ ++ "." ++ ⟨pad2 (cents q % 100)⟩

/-! ### The comparison loop -/

/-- The fixed category tuple iterated by `gather_data` in cli.py, verbatim
(four names carry a trailing emoji in the source). -/
def categories : List String :=
  ["Total Income",
   "Immediate Obligations",
   "True Expenses",
   "Groceries",
   "Medical 🏨",
   "Auto Maintenance 🚗",
   "Subscriptions",
   "Quality of Life Goals",
   "Vacation 🏝",
   "Gifts 🎁",
   "Just for Fun"]

/-- The list comprehension
`[r["Total"] for k in [initial, compared] for r in k if r["Category"] == category]`:
totals of matching rows, initial rows first, then compared rows. -/
def categoryTotals (initial compared : List Row) (category : String) : List ℚ :=
  ((initial ++ compared).filter (fun r => r.Category == category)).map (fun r => r.Total)

/-- One category's report section, given the two matched raw totals.  The
string is the concatenation of the three f-strings appended to `report` in
the loop body of `gather_data`, with `init_total`/`comp_total` the absolute
values of the matched totals. -/
def renderSection (init_year comp_year category : String) (i0 c0 : ℚ) : String :=
  let init_total := |i0|
  let comp_total := |c0|
  let total_diff := comp_total - init_total
  "\n        --- " ++ category ++ " " ++ (if total_diff < 0 then "✔️" else "") ++
    " ---\n        " ++
    "\n        " ++ init_year ++ " Expense:        " ++ "$" ++ fmtComma2 init_total ++
    "\n        " ++ comp_year ++ " Expense:        " ++ "$" ++ fmtComma2 comp_total ++
    "\n        " ++
    "\n        Difference:          " ++ "$" ++ fmtComma2 (comp_total - init_total) ++
    "\n        Percent Difference:  %" ++ fmtFixed2 (percent_diff init_total comp_total) ++
    "\n\n        "

/-- The loop body for one category: the tuple unpacking
`init_total, comp_total = [...]` succeeds exactly when the comprehension
yields two totals; any other length raises (modelled as `none`). -/
def categorySection (init_year comp_year : String) (initial compared : List Row)
    (category : String) : Option String :=
  match categoryTotals initial compared category with
  | [i0, c0] => some (renderSection init_year comp_year category i0 c0)
  | _ => none

/-- The `for category in (...)` loop of `gather_data`: threads the
accumulated report through the remaining categories, aborting on a failed
unpacking. -/
def gatherLoop (init_year comp_year : String) (initial compared : List Row) :
    String → List String → Option String
  | report, [] => some report
  | report, category :: rest =>
    match categorySection init_year comp_year initial compared category with
    | some s => gatherLoop init_year comp_year initial compared (report ++ s) rest
    | none => none

/-- Generalisation of `gather_data` with the category tuple as a parameter
(the source fixes it to `categories`; the spec's single-category scenario
reduces it). -/
def gatherDataOver (cats : List String) (initial compared : List Row)
    (init_year comp_year : String) : Option String :=
  gatherLoop init_year comp_year initial compared
    ("Comparison of expenses for CY " ++ init_year ++ " - " ++ comp_year ++ "\n") cats

/-- Embedding of `gather_data(initial, compared, init_year, comp_year)` from
cli.py; `none` models the unrecoverable unpacking error. -/
def gather_data (initial compared : List Row) (init_year comp_year : String) : Option String :=
  gatherDataOver categories initial compared init_year comp_year

/-! ### String helpers for stating the structural claims -/

/-- The list `small` occurs contiguously inside `big`. -/
def occursIn (small big : List Char) : Prop :=
  ∃ s t, big = s ++ small ++ t

theorem data_append (a b : String) : (a ++ b).data = a.data ++ b.data := rfl

theorem data_mk (l : List Char) : (String.mk l).data = l := rfl

/-- Concatenation of a list of strings (the report is the header followed
by the concatenation of the per-category sections). -/
def concatAll : List String → String
  | [] => ""
  | s :: rest => s ++ concatAll rest

/-! ### Evaluation lemmas

Rational arithmetic does not reduce in the kernel, so concrete renderings
are computed by discharging the rational layer with `norm_num` and the
digit/string layer with `decide`. -/

theorem roundHalfEven_down (q : ℚ) (f : ℤ) (h1 : (f:ℚ) ≤ q) (h2 : q - f < 1/2) :
    roundHalfEven q = f := by
  have hf : ⌊q⌋ = f := by
    rw [Int.floor_eq_iff]
    exact ⟨h1, by linarith⟩
  simp only [roundHalfEven, hf]
  rw [if_pos h2]

theorem cents_of_bounds (q : ℚ) (n : ℕ) (h1 : (n:ℚ) ≤ |q| * 100)
    (h2 : |q| * 100 - n < 1/2) : cents q = n := by
  have h := roundHalfEven_down (|q| * 100) (n:ℤ)
    (by exact_mod_cast h1) (by exact_mod_cast h2)
  simp only [cents, h, Int.toNat_natCast]

theorem cents_eq (q : ℚ) (n : ℕ) (h : |q| * 100 = (n:ℚ)) : cents q = n :=
  cents_of_bounds q n (le_of_eq h.symm) (by rw [h]; norm_num)

theorem empty_append_str (s : String) : "" ++ s = s := rfl

theorem fmtComma2_concrete (q : ℚ) (n : ℕ) (s : String) (hq : ¬ q < 0)
    (hc : cents q = n)
    (hs : commaFmt (n / 100) ++ "." ++ (⟨pad2 (n % 100)⟩ : String) = s) :
    fmtComma2 q = s := by
  rw [fmtComma2, if_neg hq, hc, empty_append_str, hs]

theorem fmtComma2_concrete_neg (q : ℚ) (n : ℕ) (s : String) (hq : q < 0)
    (hc : cents q = n)
    (hs : "-" ++ commaFmt (n / 100) ++ "." ++ (⟨pad2 (n % 100)⟩ : String) = s) :
    fmtComma2 q = s := by
  rw [fmtComma2, if_pos hq, hc, hs]

theorem fmtFixed2_concrete (q : ℚ) (n : ℕ) (s : String) (hq : ¬ q < 0)
    (hc : cents q = n)
    (hs : (⟨natDigits (n / 100)⟩ : String) ++ "." ++ (⟨pad2 (n % 100)⟩ : String) = s) :
    fmtFixed2 q = s := by
  rw [fmtFixed2, if_neg hq, hc, empty_append_str, hs]

theorem gatherLoop_nil (iy cy : String) (initial compared : List Row) (report : String) :
    gatherLoop iy cy initial compared report [] = some report := rfl

theorem gatherLoop_cons (iy cy : String) (initial compared : List Row) (report : String)
    (cat : String) (rest : List String) :
    gatherLoop iy cy initial compared report (cat :: rest) =
      match categorySection iy cy initial compared cat with
      | some s => gatherLoop iy cy initial compared (report ++ s) rest
      | none => none := rfl

theorem renderSection_eval (iy cy cat : String) (i0 c0 : ℚ) (ai ac ad ap m : String)
    (hai : fmtComma2 |i0| = ai) (hac : fmtComma2 |c0| = ac)
    (had : fmtComma2 (|c0| - |i0|) = ad)
    (hap : fmtFixed2 (percent_diff |i0| |c0|) = ap)
    (hm : (if |c0| - |i0| < 0 then "✔️" else "") = m) :
    renderSection iy cy cat i0 c0 =
      "\n        --- " ++ cat ++ " " ++ m ++ " ---\n        " ++
      "\n        " ++ iy ++ " Expense:        " ++ "$" ++ ai ++
      "\n        " ++ cy ++ " Expense:        " ++ "$" ++ ac ++
      "\n        " ++
      "\n        Difference:          " ++ "$" ++ ad ++
      "\n        Percent Difference:  %" ++ ap ++ "\n\n        " := by
  simp only [renderSection]
  rw [hai, hac, had, hap, hm]

/-! ### Claim C5: the single-category scenario -/

def c5initial : List Row := [⟨"Total Income", 5000⟩]

def c5compared : List Row := [⟨"Total Income", 4500⟩]

set_option maxRecDepth 100000 in
theorem c5_report_value :
    gatherDataOver ["Total Income"] c5initial c5compared "2020" "2021" =
      some "Comparison of expenses for CY 2020 - 2021\n\n        --- Total Income ✔️ ---\n        \n        2020 Expense:        $5,000.00\n        2021 Expense:        $4,500.00\n        \n        Difference:          $-500.00\n        Percent Difference:  %11.11\n\n        " := by
  have hai : fmtComma2 |(5000:ℚ)| = "5,000.00" := by
    rw [show |(5000:ℚ)| = 5000 by norm_num]
    exact fmtComma2_concrete 5000 500000 _ (by norm_num)
      (cents_eq 5000 500000 (by norm_num)) (by decide)
  have hac : fmtComma2 |(4500:ℚ)| = "4,500.00" := by
    rw [show |(4500:ℚ)| = 4500 by norm_num]
    exact fmtComma2_concrete 4500 450000 _ (by norm_num)
      (cents_eq 4500 450000 (by norm_num)) (by decide)
  have had : fmtComma2 (|(4500:ℚ)| - |(5000:ℚ)|) = "-500.00" := by
    rw [show |(4500:ℚ)| - |(5000:ℚ)| = -500 by norm_num]
    exact fmtComma2_concrete_neg (-500) 50000 _ (by norm_num)
      (cents_eq (-500) 50000 (by norm_num)) (by decide)
  have hpd : percent_diff |(5000:ℚ)| |(4500:ℚ)| = 100/9 := by
    rw [show |(5000:ℚ)| = 5000 by norm_num, show |(4500:ℚ)| = 4500 by norm_num]
    rw [percent_diff, if_neg (by norm_num), if_neg (by norm_num)]
    norm_num
  have hap : fmtFixed2 (percent_diff |(5000:ℚ)| |(4500:ℚ)|) = "11.11" := by
    rw [hpd]
    exact fmtFixed2_concrete (100/9) 1111 _ (by norm_num)
      (cents_of_bounds (100/9) 1111 (by rw [show |(100:ℚ)/9| = 100/9 by norm_num]; norm_num)
        (by rw [show |(100:ℚ)/9| = 100/9 by norm_num]; norm_num)) (by decide)
  have hm : (if |(4500:ℚ)| - |(5000:ℚ)| < 0 then "✔️" else "") = "✔️" := by
    rw [if_pos (by norm_num)]
  have hts : categoryTotals c5initial c5compared "Total Income" = [5000, 4500] := by decide
  have hcs : categorySection "2020" "2021" c5initial c5compared "Total Income" =
      some (renderSection "2020" "2021" "Total Income" 5000 4500) := by
    unfold categorySection
    rw [hts]
  have hrender := renderSection_eval "2020" "2021" "Total Income" 5000 4500 _ _ _ _ _
    hai hac had hap hm
  unfold gatherDataOver
  rw [gatherLoop_cons, hcs, hrender]
  rfl

/-- Claim C5, counterexample: in the single-category scenario (initial total
5000, compared total 4500) the report does show a difference of -500.00, but
the percent difference is %11.11, not 10.00: `percent_diff 5000 4500`
divides by its second argument 4500, so it is 100/9 ≈ 11.11, never 10. -/
theorem gather_scenario_counterexample :
    gatherDataOver ["Total Income"] c5initial c5compared "2020" "2021" =
      some "Comparison of expenses for CY 2020 - 2021\n\n        --- Total Income ✔️ ---\n        \n        2020 Expense:        $5,000.00\n        2021 Expense:        $4,500.00\n        \n        Difference:          $-500.00\n        Percent Difference:  %11.11\n\n        " ∧
      percent_diff 5000 4500 ≠ 10 := by
  refine ⟨c5_report_value, ?_⟩
  rw [percent_diff, if_neg (by norm_num), if_neg (by norm_num)]
  norm_num

/-- Claim C5 as amended: with the category list reduced to "Total Income",
initial total 5000 and compared total 4500, `gather_data` reports a
difference of -500.00 and a percent difference of 11.11 (computed as
(500/4500)·100 = 100/9, per percent_difference(initial_total,
compared_total), which divides by its second argument). -/
theorem gather_scenario_report :
    gatherDataOver ["Total Income"] c5initial c5compared "2020" "2021" =
      some "Comparison of expenses for CY 2020 - 2021\n\n        --- Total Income ✔️ ---\n        \n        2020 Expense:        $5,000.00\n        2021 Expense:        $4,500.00\n        \n        Difference:          $-500.00\n        Percent Difference:  %11.11\n\n        " ∧
      percent_diff 5000 4500 = 100/9 := by
  refine ⟨c5_report_value, ?_⟩
  rw [percent_diff, if_neg (by norm_num), if_neg (by norm_num)]
  norm_num

/-! ### Claim C6: the category list -/

/-- Claim C6, counterexample: the category tuple is not the plain list of
names the spec gives — four entries carry a trailing emoji; e.g. the fifth
entry is "Medical 🏨", not "Medical". -/
theorem categories_plain_counterexample :
    categories[4]? = some "Medical 🏨" ∧ ("Medical 🏨" : String) ≠ "Medical" ∧
      categories ≠ ["Total Income", "Immediate Obligations", "True Expenses", "Groceries",
        "Medical", "Auto Maintenance", "Subscriptions", "Quality of Life Goals",
        "Vacation", "Gifts", "Just for Fun"] := by
  refine ⟨by decide, by decide, by decide⟩

/-- Claim C6 as amended: the fixed CategorySet iterated by `gather_data` is,
verbatim and in this order, "Total Income", "Immediate Obligations",
"True Expenses", "Groceries", "Medical 🏨", "Auto Maintenance 🚗",
"Subscriptions", "Quality of Life Goals", "Vacation 🏝", "Gifts 🎁",
"Just for Fun" (four names carry a trailing emoji), and these exact strings
are compared against the row category fields to select matching rows. -/
theorem categories_exact :
    categories = ["Total Income", "Immediate Obligations", "True Expenses", "Groceries",
        "Medical 🏨", "Auto Maintenance 🚗", "Subscriptions", "Quality of Life Goals",
        "Vacation 🏝", "Gifts 🎁", "Just for Fun"] ∧
      ∀ initial compared category, categoryTotals initial compared category =
        ((initial ++ compared).filter (fun r => r.Category == category)).map
          (fun r => r.Total) :=
  ⟨rfl, fun _ _ _ => rfl⟩

/-! ### Claim C7: when the unpacking fails -/

theorem categorySection_none_iff (iy cy : String) (initial compared : List Row)
    (cat : String) :
    categorySection iy cy initial compared cat = none ↔
      (categoryTotals initial compared cat).length ≠ 2 := by
  unfold categorySection
  generalize categoryTotals initial compared cat = l
  match l with
  | [] => simp
  | [a] => simp
  | [a, b] => simp
  | a :: b :: x :: rest => simp

theorem categorySection_some (iy cy : String) (initial compared : List Row)
    (cat sec : String) (h : categorySection iy cy initial compared cat = some sec) :
    ∃ i0 c0, categoryTotals initial compared cat = [i0, c0] ∧
      sec = renderSection iy cy cat i0 c0 := by
  unfold categorySection at h
  generalize hl : categoryTotals initial compared cat = l at h
  match l with
  | [] => exact absurd h (by simp)
  | [a] => exact absurd h (by simp)
  | [a, b] =>
    have h2 : some (renderSection iy cy cat a b) = some sec := h
    exact ⟨a, b, rfl, (Option.some.inj h2).symm⟩
  | a :: b :: x :: rest => exact absurd h (by simp)

theorem gatherLoop_cons_of_some (iy cy : String) (initial compared : List Row)
    (report cat : String) (rest : List String) (sec : String)
    (hcs : categorySection iy cy initial compared cat = some sec) :
    gatherLoop iy cy initial compared report (cat :: rest) =
      gatherLoop iy cy initial compared (report ++ sec) rest := by
  rw [gatherLoop_cons, hcs]

theorem gatherLoop_cons_of_none (iy cy : String) (initial compared : List Row)
    (report cat : String) (rest : List String)
    (hcs : categorySection iy cy initial compared cat = none) :
    gatherLoop iy cy initial compared report (cat :: rest) = none := by
  rw [gatherLoop_cons, hcs]

theorem gatherLoop_none_iff (iy cy : String) (initial compared : List Row) :
    ∀ (cats : List String) (report : String),
      gatherLoop iy cy initial compared report cats = none ↔
        ∃ cat ∈ cats, (categoryTotals initial compared cat).length ≠ 2 := by
  intro cats
  induction cats with
  | nil => intro report; simp [gatherLoop]
  | cons c rest ih =>
    intro report
    cases hcs : categorySection iy cy initial compared c with
    | none =>
      rw [gatherLoop_cons_of_none iy cy initial compared report c rest hcs]
      have hlen := (categorySection_none_iff iy cy initial compared c).mp hcs
      constructor
      · intro _
        exact ⟨c, List.mem_cons_self c rest, hlen⟩
      · intro _
        rfl
    | some sec =>
      rw [gatherLoop_cons_of_some iy cy initial compared report c rest sec hcs]
      rw [ih (report ++ sec)]
      have hc2 : ¬ (categoryTotals initial compared c).length ≠ 2 := by
        rw [← categorySection_none_iff iy cy initial compared c]
        simp [hcs]
      constructor
      · rintro ⟨cat, hmem, hlen⟩
        exact ⟨cat, List.mem_cons_of_mem c hmem, hlen⟩
      · rintro ⟨cat, hmem, hlen⟩
        rcases List.mem_cons.mp hmem with rfl | hmem2
        · exact absurd hlen hc2
        · exact ⟨cat, hmem2, hlen⟩

/-- Claim C7 as amended: `gather_data` aborts with the unrecoverable
unpacking error — producing no report text at all — exactly when some
category in the fixed list is matched by a combined number of rows across
the two sequences (initial first, then compared) different from two.  In
particular zero or multiple matches in one sequence need not be fatal:
zero matches in `initial` with two matches in `compared` unpacks fine,
silently taking both totals from `compared`. -/
theorem gather_error_iff (initial compared : List Row) (iy cy : String) :
    gather_data initial compared iy cy = none ↔
      ∃ cat ∈ categories, (categoryTotals initial compared cat).length ≠ 2 :=
  gatherLoop_none_iff iy cy initial compared categories _

/-- Two rows per fixed category, all in the compared sequence. -/
def c7compared : List Row :=
  [⟨"Total Income", 1⟩, ⟨"Total Income", 2⟩,
   ⟨"Immediate Obligations", 1⟩, ⟨"Immediate Obligations", 2⟩,
   ⟨"True Expenses", 1⟩, ⟨"True Expenses", 2⟩,
   ⟨"Groceries", 1⟩, ⟨"Groceries", 2⟩,
   ⟨"Medical 🏨", 1⟩, ⟨"Medical 🏨", 2⟩,
   ⟨"Auto Maintenance 🚗", 1⟩, ⟨"Auto Maintenance 🚗", 2⟩,
   ⟨"Subscriptions", 1⟩, ⟨"Subscriptions", 2⟩,
   ⟨"Quality of Life Goals", 1⟩, ⟨"Quality of Life Goals", 2⟩,
   ⟨"Vacation 🏝", 1⟩, ⟨"Vacation 🏝", 2⟩,
   ⟨"Gifts 🎁", 1⟩, ⟨"Gifts 🎁", 2⟩,
   ⟨"Just for Fun", 1⟩, ⟨"Just for Fun", 2⟩]

/-- Claim C7, counterexample: with an empty initial sequence (so every
category has zero matches in `initial`) and every category duplicated in
`compared`, the unpacking finds exactly two combined matches per category
and `gather_data` succeeds — no fatal error is raised, contradicting the
claim that zero matches in either sequence considered separately is fatal. -/
theorem gather_missing_counterexample :
    (([] : List Row).filter (fun r => r.Category == "Total Income")) = [] ∧
      (c7compared.filter (fun r => r.Category == "Total Income")).length = 2 ∧
      (gather_data [] c7compared "2020" "2021").isSome = true := by
  refine ⟨rfl, by decide, ?_⟩
  have h : ¬ (gather_data [] c7compared "2020" "2021" = none) := by
    rw [gather_data, gatherDataOver, gatherLoop_none_iff]
    decide
  cases hg : gather_data [] c7compared "2020" "2021" with
  | none => exact absurd hg h
  | some s => rfl

/-! ### Claim C8: the success marker

The marker written by the loop is "✔️" (U+2714 U+FE0F).  Neither the check
character U+2714 nor any other marker character can come from the number
formatting or the fixed category names, so its occurrence in a section is
equivalent to the `total_diff < 0` test having succeeded, provided the two
year labels do not themselves contain the check character. -/

theorem digitCh_ne_marker (d : ℕ) : digitCh d ≠ '✔' := by
  unfold digitCh
  repeat' split
  all_goals decide

theorem marker_not_mem_natDigitsAux : ∀ (fuel n : ℕ), '✔' ∉ natDigitsAux fuel n := by
  intro fuel
  induction fuel with
  | zero => intro n; simp [natDigitsAux]
  | succ f ih =>
    intro n
    rw [natDigitsAux]
    split
    · intro h
      simp only [List.mem_singleton] at h
      exact digitCh_ne_marker n h.symm
    · intro h
      rcases List.mem_append.mp h with h2 | h2
      · exact ih (n / 10) h2
      · simp only [List.mem_singleton] at h2
        exact digitCh_ne_marker (n % 10) h2.symm

theorem marker_not_mem_natDigits (n : ℕ) : '✔' ∉ natDigits n :=
  marker_not_mem_natDigitsAux (n + 1) n

theorem mem_commaGroupAux : ∀ (l : List Char) (c : Char),
    c ∈ commaGroupAux l → c ∈ l ∨ c = ',' := by
  intro l
  induction l using commaGroupAux.induct with
  | case1 a b d e rest ih =>
    intro c hc
    rw [commaGroupAux] at hc
    simp only [List.mem_cons] at hc ⊢
    rcases hc with h | h | h | h | h
    · exact Or.inl (Or.inl h)
    · exact Or.inl (Or.inr (Or.inl h))
    · exact Or.inl (Or.inr (Or.inr (Or.inl h)))
    · exact Or.inr h
    · rcases ih c h with hm | hm
      · simp only [List.mem_cons] at hm
        rcases hm with h2 | h2
        · exact Or.inl (Or.inr (Or.inr (Or.inr (Or.inl h2))))
        · exact Or.inl (Or.inr (Or.inr (Or.inr (Or.inr h2))))
      · exact Or.inr hm
  | case2 l h =>
    intro c hc
    rw [commaGroupAux] at hc
    exact Or.inl hc
    exact h

theorem marker_not_mem_commaFmt (n : ℕ) : '✔' ∉ (commaFmt n).data := by
  intro h
  simp only [commaFmt] at h
  have h2 := List.mem_reverse.mp h
  rcases mem_commaGroupAux _ _ h2 with hm | hc
  · exact marker_not_mem_natDigits n (List.mem_reverse.mp hm)
  · exact absurd hc (by decide)

theorem marker_not_mem_pad2 (n : ℕ) : '✔' ∉ pad2 n := by
  unfold pad2
  split
  · intro h
    rcases List.mem_cons.mp h with h2 | h2
    · exact absurd h2 (by decide)
    · exact marker_not_mem_natDigits n h2
  · exact marker_not_mem_natDigits n

theorem marker_not_mem_fmtComma2 (q : ℚ) : '✔' ∉ (fmtComma2 q).data := by
  intro h
  simp only [fmtComma2, data_append, List.mem_append] at h
  rcases h with ((h | h) | h) | h
  · revert h
    split <;> decide
  · exact marker_not_mem_commaFmt _ h
  · exact absurd h (by decide)
  · exact marker_not_mem_pad2 _ h

theorem marker_not_mem_fmtFixed2 (q : ℚ) : '✔' ∉ (fmtFixed2 q).data := by
  intro h
  simp only [fmtFixed2, data_append, List.mem_append] at h
  rcases h with ((h | h) | h) | h
  · revert h
    split <;> decide
  · exact marker_not_mem_natDigits _ h
  · exact absurd h (by decide)
  · exact marker_not_mem_pad2 _ h

theorem marker_not_mem_categories (cat : String) (h : cat ∈ categories) :
    '✔' ∉ cat.data := by
  fin_cases h <;> decide

theorem occursIn_mem {small big : List Char} (h : occursIn small big)
    {c : Char} (hc : c ∈ small) : c ∈ big := by
  obtain ⟨s, t, rfl⟩ := h
  exact List.mem_append.mpr (Or.inl (List.mem_append.mpr (Or.inr hc)))

theorem marker_not_mem_renderSection (iy cy cat : String) (i0 c0 : ℚ)
    (hiy : '✔' ∉ iy.data) (hcy : '✔' ∉ cy.data) (hcat : '✔' ∉ cat.data)
    (hdiff : ¬ (|c0| - |i0| < 0)) : '✔' ∉ (renderSection iy cy cat i0 c0).data := by
  intro h
  simp only [renderSection] at h
  rw [if_neg hdiff] at h
  have l1 : '✔' ∉ ("\n        --- " : String).data := by decide
  have l2 : '✔' ∉ (" " : String).data := by decide
  have l3 : '✔' ∉ ("" : String).data := by decide
  have l4 : '✔' ∉ (" ---\n        " : String).data := by decide
  have l5 : '✔' ∉ ("\n        " : String).data := by decide
  have l6 : '✔' ∉ (" Expense:        " : String).data := by decide
  have l7 : '✔' ∉ ("$" : String).data := by decide
  have l8 : '✔' ∉ ("\n        Difference:          " : String).data := by decide
  have l9 : '✔' ∉ ("\n        Percent Difference:  %" : String).data := by decide
  have l10 : '✔' ∉ ("\n\n        " : String).data := by decide
  simp only [data_append, List.mem_append] at h
  simp [l1, l2, l3, l4, l5, l6, l7, l8, l9, l10, hiy, hcy, hcat,
    marker_not_mem_fmtComma2, marker_not_mem_fmtFixed2] at h

/-- Claim C8: for a category processed by `gather_data` (matched totals
i0 from the initial rows and c0 from the compared rows), the success marker
appears in that category's report section if and only if
`|c0| - |i0| < 0`, i.e. compared_total − initial_total < 0 on the absolute
totals.  The two year labels are assumed not to contain the marker
character themselves. -/
theorem success_marker_iff (iy cy : String) (initial compared : List Row)
    (category s : String) (i0 c0 : ℚ)
    (hcat : category ∈ categories)
    (hiy : '✔' ∉ iy.data) (hcy : '✔' ∉ cy.data)
    (hts : categoryTotals initial compared category = [i0, c0])
    (hs : categorySection iy cy initial compared category = some s) :
    occursIn "✔️".data s.data ↔ |c0| - |i0| < 0 := by
  unfold categorySection at hs
  rw [hts] at hs
  have hs2 : some (renderSection iy cy category i0 c0) = some s := hs
  rw [← Option.some.inj hs2]
  constructor
  · intro h
    by_contra hge
    exact marker_not_mem_renderSection iy cy category i0 c0 hiy hcy
      (marker_not_mem_categories category hcat) hge (occursIn_mem h (by decide))
  · intro hlt
    refine ⟨("\n        --- " ++ category ++ " ").data,
      (" ---\n        " ++ "\n        " ++ iy ++ " Expense:        " ++ "$" ++
        fmtComma2 |i0| ++ "\n        " ++ cy ++ " Expense:        " ++ "$" ++
        fmtComma2 |c0| ++ "\n        " ++ "\n        Difference:          " ++ "$" ++
        fmtComma2 (|c0| - |i0|) ++ "\n        Percent Difference:  %" ++
        fmtFixed2 (percent_diff |i0| |c0|) ++ "\n\n        ").data, ?_⟩
    simp only [renderSection]
    rw [if_pos hlt]
    simp [data_append, List.append_assoc]

theorem success_marker_iff_witness :
    occursIn "✔️".data (renderSection "2020" "2021" "Total Income" (5:ℚ) 3).data := by
  have hts : categoryTotals [⟨"Total Income", 5⟩] [⟨"Total Income", 3⟩] "Total Income" =
      [5, 3] := by decide
  have hcs : categorySection "2020" "2021" [⟨"Total Income", 5⟩] [⟨"Total Income", 3⟩]
      "Total Income" = some (renderSection "2020" "2021" "Total Income" 5 3) := by
    unfold categorySection
    rw [hts]
  exact (success_marker_iff "2020" "2021" [⟨"Total Income", 5⟩] [⟨"Total Income", 3⟩]
    "Total Income" _ 5 3 (by decide) (by decide) (by decide) hts hcs).mpr (by norm_num)

/-! ### Claim C9: the shape of a successful report -/

theorem str_ext (a b : String) (h : a.data = b.data) : a = b := by
  cases a
  cases b
  exact congrArg String.mk h

theorem append_empty_str (s : String) : s ++ "" = s :=
  str_ext _ _ (by simp [data_append])

theorem append_assoc_str (a b c : String) : a ++ b ++ c = a ++ (b ++ c) :=
  str_ext _ _ (by simp [data_append])

theorem gatherLoop_some (iy cy : String) (initial compared : List Row) :
    ∀ (cats : List String) (report out : String),
      gatherLoop iy cy initial compared report cats = some out →
      ∃ secs : List String, secs.length = cats.length ∧
        out = report ++ concatAll secs ∧
        ∀ (k : ℕ) (cat : String), cats[k]? = some cat →
          ∃ i0 c0, categoryTotals initial compared cat = [i0, c0] ∧
            secs[k]? = some (renderSection iy cy cat i0 c0) := by
  intro cats
  induction cats with
  | nil =>
    intro report out hg
    have h2 : some report = some out := hg
    refine ⟨[], rfl, ((append_empty_str report).trans (Option.some.inj h2)).symm, ?_⟩
    intro k cat hk
    simp at hk
  | cons c rest ih =>
    intro report out hg
    cases hcs : categorySection iy cy initial compared c with
    | none =>
      rw [gatherLoop_cons_of_none iy cy initial compared report c rest hcs] at hg
      exact absurd hg (by simp)
    | some sec =>
      rw [gatherLoop_cons_of_some iy cy initial compared report c rest sec hcs] at hg
      obtain ⟨secs, hlen, hout, hmatch⟩ := ih (report ++ sec) out hg
      obtain ⟨i0, c0, hts, hsec⟩ := categorySection_some iy cy initial compared c sec hcs
      refine ⟨sec :: secs, by simp [hlen], ?_, ?_⟩
      · rw [hout, append_assoc_str]
        rfl
      · intro k cat hk
        cases k with
        | zero =>
          simp only [List.getElem?_cons_zero] at hk
          obtain rfl := Option.some.inj hk
          refine ⟨i0, c0, hts, ?_⟩
          simp [hsec]
        | succ k =>
          simp only [List.getElem?_cons_succ] at hk ⊢
          exact hmatch k cat hk

theorem dollar_init_occursIn (iy cy cat : String) (i0 c0 : ℚ) :
    occursIn ("$" ++ fmtComma2 |i0|).data (renderSection iy cy cat i0 c0).data := by
  refine ⟨("\n        --- " ++ cat ++ " " ++ (if |c0| - |i0| < 0 then "✔️" else "") ++
      " ---\n        " ++ "\n        " ++ iy ++ " Expense:        ").data,
    ("\n        " ++ cy ++ " Expense:        " ++ "$" ++ fmtComma2 |c0| ++ "\n        " ++
      "\n        Difference:          " ++ "$" ++ fmtComma2 (|c0| - |i0|) ++
      "\n        Percent Difference:  %" ++ fmtFixed2 (percent_diff |i0| |c0|) ++
      "\n\n        ").data, ?_⟩
  simp only [renderSection]
  simp [data_append, List.append_assoc]

theorem dollar_comp_occursIn (iy cy cat : String) (i0 c0 : ℚ) :
    occursIn ("$" ++ fmtComma2 |c0|).data (renderSection iy cy cat i0 c0).data := by
  refine ⟨("\n        --- " ++ cat ++ " " ++ (if |c0| - |i0| < 0 then "✔️" else "") ++
      " ---\n        " ++ "\n        " ++ iy ++ " Expense:        " ++ "$" ++ fmtComma2 |i0| ++
      "\n        " ++ cy ++ " Expense:        ").data,
    ("\n        " ++ "\n        Difference:          " ++ "$" ++ fmtComma2 (|c0| - |i0|) ++
      "\n        Percent Difference:  %" ++ fmtFixed2 (percent_diff |i0| |c0|) ++
      "\n\n        ").data, ?_⟩
  simp only [renderSection]
  simp [data_append, List.append_assoc]

/-- Claim C9: every successful `gather_data` report is the header line
naming the two compared years followed by one rendered section per category
of the fixed list, in that order; each section is the rendering of that
category's matched totals and displays both years' absolute totals as
currency (`fmtComma2`, two decimals with thousands separators) after a
dollar sign. -/
theorem report_structure (initial compared : List Row) (iy cy report : String)
    (h : gather_data initial compared iy cy = some report) :
    ∃ secs : List String, secs.length = categories.length ∧
      report = "Comparison of expenses for CY " ++ iy ++ " - " ++ cy ++ "\n" ++
        concatAll secs ∧
      ∀ (k : ℕ) (cat : String), categories[k]? = some cat →
        ∃ (i0 c0 : ℚ) (sec : String), secs[k]? = some sec ∧
          categoryTotals initial compared cat = [i0, c0] ∧
          sec = renderSection iy cy cat i0 c0 ∧
          occursIn ("$" ++ fmtComma2 |i0|).data sec.data ∧
          occursIn ("$" ++ fmtComma2 |c0|).data sec.data := by
  rw [gather_data, gatherDataOver] at h
  obtain ⟨secs, hlen, hout, hmatch⟩ :=
    gatherLoop_some iy cy initial compared categories _ report h
  refine ⟨secs, hlen, hout, ?_⟩
  intro k cat hk
  obtain ⟨i0, c0, hts, hsec⟩ := hmatch k cat hk
  exact ⟨i0, c0, renderSection iy cy cat i0 c0, hsec, hts, rfl,
    dollar_init_occursIn iy cy cat i0 c0, dollar_comp_occursIn iy cy cat i0 c0⟩

/-- One row per fixed category, initial year: every total is 100. -/
def w9initial : List Row :=
  [⟨"Total Income", 100⟩, ⟨"Immediate Obligations", 100⟩, ⟨"True Expenses", 100⟩,
   ⟨"Groceries", 100⟩, ⟨"Medical 🏨", 100⟩, ⟨"Auto Maintenance 🚗", 100⟩,
   ⟨"Subscriptions", 100⟩, ⟨"Quality of Life Goals", 100⟩, ⟨"Vacation 🏝", 100⟩,
   ⟨"Gifts 🎁", 100⟩, ⟨"Just for Fun", 100⟩]

/-- One row per fixed category, compared year: every total is 50. -/
def w9compared : List Row :=
  [⟨"Total Income", 50⟩, ⟨"Immediate Obligations", 50⟩, ⟨"True Expenses", 50⟩,
   ⟨"Groceries", 50⟩, ⟨"Medical 🏨", 50⟩, ⟨"Auto Maintenance 🚗", 50⟩,
   ⟨"Subscriptions", 50⟩, ⟨"Quality of Life Goals", 50⟩, ⟨"Vacation 🏝", 50⟩,
   ⟨"Gifts 🎁", 50⟩, ⟨"Just for Fun", 50⟩]

/-- One rendered section of the witness report (every category compares
$100.00 against $50.00, an improvement, so the marker is present). -/
def w9section (cat : String) : String :=
  "\n        --- " ++ cat ++
    " ✔️ ---\n        \n        2020 Expense:        $100.00\n        2021 Expense:        $50.00\n        \n        Difference:          $-50.00\n        Percent Difference:  %100.00\n\n        "

/-- The report produced for `w9initial`/`w9compared` over years 2020/2021. -/
def w9report : String :=
  "Comparison of expenses for CY 2020 - 2021\n" ++
    w9section "Total Income" ++ w9section "Immediate Obligations" ++
    w9section "True Expenses" ++ w9section "Groceries" ++ w9section "Medical 🏨" ++
    w9section "Auto Maintenance 🚗" ++ w9section "Subscriptions" ++
    w9section "Quality of Life Goals" ++ w9section "Vacation 🏝" ++
    w9section "Gifts 🎁" ++ w9section "Just for Fun"

set_option maxRecDepth 400000 in
theorem w9report_eq :
    gather_data w9initial w9compared "2020" "2021" = some w9report := by
  have hm1 : fmtComma2 |(100:ℚ)| = "100.00" := by
    rw [show |(100:ℚ)| = 100 by norm_num]
    exact fmtComma2_concrete 100 10000 _ (by norm_num)
      (cents_eq 100 10000 (by norm_num)) (by decide)
  have hm2 : fmtComma2 |(50:ℚ)| = "50.00" := by
    rw [show |(50:ℚ)| = 50 by norm_num]
    exact fmtComma2_concrete 50 5000 _ (by norm_num)
      (cents_eq 50 5000 (by norm_num)) (by decide)
  have hm3 : fmtComma2 (|(50:ℚ)| - |(100:ℚ)|) = "-50.00" := by
    rw [show |(50:ℚ)| - |(100:ℚ)| = -50 by norm_num]
    exact fmtComma2_concrete_neg (-50) 5000 _ (by norm_num)
      (cents_eq (-50) 5000 (by norm_num)) (by decide)
  have hm4 : fmtFixed2 (percent_diff |(100:ℚ)| |(50:ℚ)|) = "100.00" := by
    rw [show |(100:ℚ)| = 100 by norm_num, show |(50:ℚ)| = 50 by norm_num]
    rw [show percent_diff 100 50 = 100 by
      rw [percent_diff, if_neg (by norm_num), if_neg (by norm_num)]; norm_num]
    exact fmtFixed2_concrete 100 10000 _ (by norm_num)
      (cents_eq 100 10000 (by norm_num)) (by decide)
  have hmark : (if |(50:ℚ)| - |(100:ℚ)| < 0 then "✔️" else "") = "✔️" := by
    rw [if_pos (by norm_num)]
  have hrend : ∀ cat : String, renderSection "2020" "2021" cat 100 50 = w9section cat := by
    intro cat
    rw [renderSection_eval "2020" "2021" cat 100 50 _ _ _ _ _ hm1 hm2 hm3 hm4 hmark]
    apply str_ext
    simp only [w9section, data_append, List.append_assoc]
    rw [List.append_right_inj, List.append_right_inj]
    decide
  have hsec : ∀ cat : String, categoryTotals w9initial w9compared cat = [100, 50] →
      categorySection "2020" "2021" w9initial w9compared cat =
        some (renderSection "2020" "2021" cat 100 50) := by
    intro cat hts
    unfold categorySection
    rw [hts]
  rw [gather_data, gatherDataOver]
  unfold categories
  rw [gatherLoop_cons_of_some _ _ _ _ _ _ _ _ (hsec "Total Income" (by decide)),
      gatherLoop_cons_of_some _ _ _ _ _ _ _ _ (hsec "Immediate Obligations" (by decide)),
      gatherLoop_cons_of_some _ _ _ _ _ _ _ _ (hsec "True Expenses" (by decide)),
      gatherLoop_cons_of_some _ _ _ _ _ _ _ _ (hsec "Groceries" (by decide)),
      gatherLoop_cons_of_some _ _ _ _ _ _ _ _ (hsec "Medical 🏨" (by decide)),
      gatherLoop_cons_of_some _ _ _ _ _ _ _ _ (hsec "Auto Maintenance 🚗" (by decide)),
      gatherLoop_cons_of_some _ _ _ _ _ _ _ _ (hsec "Subscriptions" (by decide)),
      gatherLoop_cons_of_some _ _ _ _ _ _ _ _ (hsec "Quality of Life Goals" (by decide)),
      gatherLoop_cons_of_some _ _ _ _ _ _ _ _ (hsec "Vacation 🏝" (by decide)),
      gatherLoop_cons_of_some _ _ _ _ _ _ _ _ (hsec "Gifts 🎁" (by decide)),
      gatherLoop_cons_of_some _ _ _ _ _ _ _ _ (hsec "Just for Fun" (by decide))]
  simp only [hrend]
  rw [gatherLoop_nil]
  rw [show ("Comparison of expenses for CY " ++ "2020" ++ " - " ++ "2021" ++ "\n" : String) =
    "Comparison of expenses for CY 2020 - 2021\n" by decide]
  rfl

theorem report_structure_witness :
    ∃ secs : List String, secs.length = categories.length ∧
      w9report = "Comparison of expenses for CY " ++ "2020" ++ " - " ++ "2021" ++ "\n" ++
        concatAll secs ∧
      ∀ (k : ℕ) (cat : String), categories[k]? = some cat →
        ∃ (i0 c0 : ℚ) (sec : String), secs[k]? = some sec ∧
          categoryTotals w9initial w9compared cat = [i0, c0] ∧
          sec = renderSection "2020" "2021" cat i0 c0 ∧
          occursIn ("$" ++ fmtComma2 |i0|).data sec.data ∧
          occursIn ("$" ++ fmtComma2 |c0|).data sec.data :=
  report_structure w9initial w9compared "2020" "2021" w9report w9report_eq

/-! ### Claim C10: rows outside the fixed category set are irrelevant -/

theorem filter_of_sub (p q : Row → Bool) (hpq : ∀ r, p r = true → q r = true) :
    ∀ l : List Row, l.filter p = (l.filter q).filter p := by
  intro l
  induction l with
  | nil => rfl
  | cons a t ih =>
    by_cases hp : p a = true
    · have hq := hpq a hp
      simp [List.filter_cons, hp, hq, ih]
    · by_cases hq : q a = true
      · simp [List.filter_cons, hp, hq, ih]
      · simp [List.filter_cons, hp, hq, ih]

theorem relevant_filter : ∀ (cat : String), cat ∈ categories →
    ∀ l1 l2 : List Row,
      l1.filter (fun r => categories.contains r.Category) =
        l2.filter (fun r => categories.contains r.Category) →
      l1.filter (fun r => r.Category == cat) = l2.filter (fun r => r.Category == cat) := by
  intro cat hcat l1 l2 hl
  have hsub : ∀ r : Row, (r.Category == cat) = true →
      categories.contains r.Category = true := by
    intro r hr
    have heq : r.Category = cat := by
      exact eq_of_beq hr
    rw [heq]
    exact List.elem_eq_true_of_mem hcat
  rw [filter_of_sub _ _ hsub l1, filter_of_sub _ _ hsub l2, hl]

theorem categoryTotals_congr (i1 c1 i2 c2 : List Row) (cat : String)
    (hcat : cat ∈ categories)
    (hi : i1.filter (fun r => categories.contains r.Category) =
      i2.filter (fun r => categories.contains r.Category))
    (hc : c1.filter (fun r => categories.contains r.Category) =
      c2.filter (fun r => categories.contains r.Category)) :
    categoryTotals i1 c1 cat = categoryTotals i2 c2 cat := by
  unfold categoryTotals
  rw [List.filter_append, List.filter_append,
    relevant_filter cat hcat i1 i2 hi, relevant_filter cat hcat c1 c2 hc]

theorem gatherLoop_congr (iy cy : String) (i1 c1 i2 c2 : List Row) :
    ∀ cats : List String,
      (∀ cat ∈ cats, categoryTotals i1 c1 cat = categoryTotals i2 c2 cat) →
      ∀ report : String,
        gatherLoop iy cy i1 c1 report cats = gatherLoop iy cy i2 c2 report cats := by
  intro cats
  induction cats with
  | nil => intro _ report; rfl
  | cons c rest ih =>
    intro h report
    have hc : categorySection iy cy i1 c1 c = categorySection iy cy i2 c2 c := by
      unfold categorySection
      rw [h c (List.mem_cons_self c rest)]
    cases hcs : categorySection iy cy i2 c2 c with
    | none =>
      rw [gatherLoop_cons_of_none iy cy i1 c1 report c rest (hc.trans hcs),
        gatherLoop_cons_of_none iy cy i2 c2 report c rest hcs]
    | some sec =>
      rw [gatherLoop_cons_of_some iy cy i1 c1 report c rest sec (hc.trans hcs),
        gatherLoop_cons_of_some iy cy i2 c2 report c rest sec hcs]
      exact ih (fun cat hm => h cat (List.mem_cons_of_mem c hm)) (report ++ sec)

/-- Claim C10: rows whose category field is not one of the fixed category
names have no effect on the output of `gather_data`: any two input pairs
that agree once restricted to rows whose category is in the fixed list
produce identical results (identical report text, or both fail). -/
theorem irrelevant_rows (i1 c1 i2 c2 : List Row) (iy cy : String)
    (hi : i1.filter (fun r => categories.contains r.Category) =
      i2.filter (fun r => categories.contains r.Category))
    (hc : c1.filter (fun r => categories.contains r.Category) =
      c2.filter (fun r => categories.contains r.Category)) :
    gather_data i1 c1 iy cy = gather_data i2 c2 iy cy := by
  rw [gather_data, gather_data, gatherDataOver, gatherDataOver]
  exact gatherLoop_congr iy cy i1 c1 i2 c2 categories
    (fun cat hcat => categoryTotals_congr i1 c1 i2 c2 cat hcat hi hc) _

theorem irrelevant_rows_witness :
    gather_data w9initial w9compared "2020" "2021" =
      gather_data (w9initial ++ [⟨"Coffee", 42⟩]) (⟨"Not A Category", 7⟩ :: w9compared)
        "2020" "2021" :=
  irrelevant_rows w9initial w9compared (w9initial ++ [⟨"Coffee", 42⟩])
    (⟨"Not A Category", 7⟩ :: w9compared) "2020" "2021" (by decide) (by decide)
